import Mathlib

/-!
Shallow embedding of `src/example_02/auto_update_machine.py`.

The script is straight-line Python 2 code: it checks that `./ansible.cfg`
exists (exit 1 otherwise), parses it with `ConfigParser.SafeConfigParser`,
extracts `defaults/hostfile` and `defaults/private_key_file`, checks that the
hostfile exists (exit 3 otherwise), takes the second line of the hostfile
(stripped) as the machine address, builds an `ssh` command string, prompts for
confirmation, and runs the command through the shell, ignoring its exit status.

The embedding models the file system as an association list from path to file
contents, and each function of the script as a pure function returning the list
of observable events it performs (existence checks, file opens, prints, the
confirmation prompt, the spawned shell command) together with its result:
either a normal value, a `sys.exit(code)`, or an uncaught Python exception.
-/

namespace AutoUpdate

/-- The file system: an association list from path to file contents.
`lookup` finding an entry models `os.path.exists` returning `True`. -/
structure FS where
  files : List (String × String)
  deriving DecidableEq, Repr

/-- `os.path.exists`. -/
def pathExists (fs : FS) (p : String) : Bool :=
  (fs.files.lookup p).isSome

/-- Contents of the file at `p`, defaulting to `""`; the script only reads a
file after a successful existence check, so the default is never observed. -/
def readFileD (fs : FS) (p : String) : String :=
  (fs.files.lookup p).getD ""

/-- The characters Python `str.strip()` removes by default. -/
def isPySpace (c : Char) : Bool :=
  c = ' ' ∨ c = '\t' ∨ c = '\n' ∨ c = '\r' ∨ c = '\x0b' ∨ c = '\x0c'

/-- Python `str.strip()` (leading and trailing whitespace removed),
implemented structurally on the character list so that it evaluates. -/
def pyStrip (s : String) : String :=
  String.mk ((s.data.dropWhile isPySpace).reverse.dropWhile isPySpace).reverse

/-- Lowercase one ASCII character, as Python `str.lower()` does on the
script's inputs. -/
def pyCharLower (c : Char) : Char :=
  if 'A' ≤ c ∧ c ≤ 'Z' then Char.ofNat (c.toNat + 32) else c

/-- Python `str.lower()`, the `optionxform` that `ConfigParser` applies to
option names. -/
def pyLower (s : String) : String :=
  String.mk (s.data.map pyCharLower)

/-- Split a character list at newline characters; a final fragment is kept
even when empty, so `splitNl "".data = [[]]`. -/
def splitNl : List Char → List (List Char)
  | [] => [[]]
  | c :: rest =>
      if c = '\n' then [] :: splitNl rest
      else
        match splitNl rest with
        | [] => [[c]]
        | l :: ls => (c :: l) :: ls

/-- Python `file.readlines()`: splits the contents at newline characters,
keeping each newline attached to its line, and dropping a final empty
fragment so that a trailing newline does not create an extra line. -/
def pyReadlines (s : String) : List String :=
  match (splitNl s.data).reverse with
  | [] => []
  | lastPart :: rest =>
      let withNl := rest.reverse.map (fun l => String.mk (l ++ ['\n']))
      if lastPart = [] then withNl else withNl ++ [String.mk lastPart]

/-- Whether the first character of a string is `c`. -/
def headIs (s : String) (c : Char) : Bool :=
  match s.data with
  | [] => false
  | d :: _ => d = c

/-- Whether the last character of a string is `c`. -/
def lastIs (s : String) (c : Char) : Bool :=
  match s.data.getLast? with
  | none => false
  | some d => d = c

/-- Exceptions the Python standard library can raise in this script:
`ConfigParser.NoSectionError`, `ConfigParser.NoOptionError` (both raised by
`ConfigParser.get`), and `IndexError` (raised by an out-of-bounds `data[1]`).
An uncaught exception aborts the process with a traceback and exit status 1. -/
inductive PyExc where
  | noSection (sec : String)
  | noOption (sec opt : String)
  | indexErr
  deriving DecidableEq, Repr

/-- How a run of (part of) the script ends abnormally: a designed
`sys.exit(code)` or an uncaught exception. -/
inductive Outcome where
  | exitWith (code : Nat)
  | uncaught (e : PyExc)
  deriving DecidableEq, Repr

/-- Observable events of the script, in program order: `os.path.exists`
checks, file opens for reading, `print` statements, the `raw_input` prompt
(with the response the environment supplies), and the `subprocess.call`
spawning a shell command (with the child status the environment supplies). -/
inductive Event where
  | existsCheck (path : String)
  | openRead (path : String)
  | printOut (text : String)
  | promptRead (prompt response : String)
  | spawnShell (cmd : String) (status : Int)
  deriving DecidableEq, Repr

/-! ### ConfigParser

A model of the fragment of Python 2 `ConfigParser` that the script's
configuration files exercise: `[section]` headers, `key=value` / `key: value`
option lines (option names lowercased and stripped, values stripped), blank
lines and `#`/`;` comment lines ignored.  Continuation lines and `%`
interpolation, which the script's inputs never contain, are not modelled.
`get` looks the option up in the named section, falling back to the `DEFAULT`
section, and raises `NoSectionError` / `NoOptionError` exactly as the Python 2
implementation does — in particular it never returns `None`. -/

/-- One parsed section: option name to value, in file order. -/
abbrev IniSection := List (String × String)

/-- A parsed configuration: section name to options, in file order. -/
abbrev IniConfig := List (String × IniSection)

/-- Split a line at its first `=` or `:` separator. -/
def splitSepAux : List Char → Option (List Char × List Char)
  | [] => none
  | c :: rest =>
      if c = '=' ∨ c = ':' then some ([], rest)
      else
        match splitSepAux rest with
        | some (l, r) => some (c :: l, r)
        | none => none

/-- Split an option line into its key and value parts. -/
def splitKV (s : String) : Option (String × String) :=
  match splitSepAux s.data with
  | some (l, r) => some (⟨l⟩, ⟨r⟩)
  | none => none

/-- Register a section, keeping its options if it already exists. -/
def ensureSection : IniConfig → String → IniConfig
  | [], name => [(name, [])]
  | (n, opts) :: rest, name =>
      if n = name then (n, opts) :: rest
      else (n, opts) :: ensureSection rest name

/-- Set an option in a section, overwriting an earlier value for the key. -/
def setOption : IniSection → String → String → IniSection
  | [], k, v => [(k, v)]
  | (k2, v2) :: rest, k, v =>
      if k2 = k then (k, v) :: rest
      else (k2, v2) :: setOption rest k v

/-- Set an option in the named section of a configuration. -/
def setInSection : IniConfig → String → String → String → IniConfig
  | [], sec, k, v => [(sec, [(k, v)])]
  | (n, opts) :: rest, sec, k, v =>
      if n = sec then (n, setOption opts k v) :: rest
      else (n, opts) :: setInSection rest sec k v

/-- Process the lines of a configuration file, tracking the current section. -/
def parseIniAux : List String → Option String → IniConfig → IniConfig
  | [], _, secs => secs
  | line :: rest, cur, secs =>
      let stripped := pyStrip line
      if stripped = "" then parseIniAux rest cur secs
      else if headIs stripped '#' ∨ headIs stripped ';' then
        parseIniAux rest cur secs
      else if headIs stripped '[' ∧ lastIs stripped ']' then
        let name := String.mk (stripped.data.drop 1).dropLast
        parseIniAux rest (some name) (ensureSection secs name)
      else
        match cur, splitKV stripped with
        | some sec, some (k, v) =>
            parseIniAux rest cur (setInSection secs sec (pyLower (pyStrip k)) (pyStrip v))
        | _, _ => parseIniAux rest cur secs

/-- `ConfigParser.read` on the given file contents. -/
def parseIni (contents : String) : IniConfig :=
  parseIniAux ((splitNl contents.data).map String.mk) none []

/-- The name of the special fallback section. -/
def DEFAULTSECT : String := "DEFAULT"

/-- `ConfigParser.get(section, option)`: the section's value for the option,
falling back to the `DEFAULT` section; raises `NoSectionError` when the
section is absent and `NoOptionError` when the option is absent.  It returns
a string or raises — it never returns `None`. -/
def configGet (cfg : IniConfig) (sec opt : String) : Except PyExc String :=
  let optKey := pyLower opt
  match cfg.lookup sec with
  | none => .error (.noSection sec)
  | some opts =>
      match opts.lookup optKey with
      | some v => .ok v
      | none =>
          match ((cfg.lookup DEFAULTSECT).getD []).lookup optKey with
          | some v => .ok v
          | none => .error (.noOption sec optKey)

/-! ### The script's constants and messages -/

/-- `ANSIBLE_CFG = "./ansible.cfg"`. -/
def ANSIBLE_CFG : String := "./ansible.cfg"

/-- The `BYPASS_PHRASE` triple-quoted string of the script. -/
def BYPASS_PHRASE : String :=
  "\n        If you want to bypass the configuration, we\x27re only looking for\n        the pem file path and the machine address. Then, we\x27ll issue\n        this command (which you can do manually):\n        ssh -i \x7bpem_file_path\x7d ec2-user@\x7bmachine_address\x7d\n\n        But, you may as well do the configuration. As, you\x27ll need it\n        for most of the other examples: `cd ..; python configure.py`\n"

/-- The guidance printed when `./ansible.cfg` is missing (exit 1). -/
def configMissingMsg : String :=
  "\n        The configuration file can\x27t be found. Read the configuration\n        instructions in README.md and run `python configure.py`.\n\n        " ++ BYPASS_PHRASE ++ "\n        "

/-- The message of the (dead) `hostfile is None` branch (exit 2). -/
def hostfileKeyMsg : String :=
  "We can\x27t read the hostfile from ansible.cfg"

/-- The guidance printed when the hostfile is missing (exit 3). -/
def hostfileMissingMsg (hostfile : String) : String :=
  "\n        The hostnames couldn\x27t be read from the webservers\n        section of this file \x27" ++ hostfile ++ "\x27.\n\n        " ++ BYPASS_PHRASE ++ "\n        "

/-- The banner `example_02` prints before asking for confirmation. -/
def commandPromptMsg (cmd : String) : String :=
  "\n\n    This is the command line you would need to update the operating\n    system for this instance:\n\n    " ++ cmd ++ "\n\n    Press the RETURN to execute the command now\n    (and connect to the machine)"

/-! ### The script's functions -/

/-- `get_private_key_and_hostfile()`: checks that `./ansible.cfg` exists
(printing guidance and exiting 1 otherwise), parses it, reads
`defaults/hostfile` — whose `ConfigParser.get` raises `NoOptionError` rather
than returning `None`, so the `if hostfile is None: sys.exit(2)` guard is
modelled as the test `(some hostfile).isNone`, which is always false — then
reads `defaults/private_key_file` and returns the pair. -/
def get_private_key_and_hostfile (fs : FS) :
    List Event × Except Outcome (String × String) :=
  if pathExists fs ANSIBLE_CFG = false then
    ([.existsCheck ANSIBLE_CFG, .printOut configMissingMsg], .error (.exitWith 1))
  else
    let trace : List Event := [.existsCheck ANSIBLE_CFG, .openRead ANSIBLE_CFG]
    let config := parseIni (readFileD fs ANSIBLE_CFG)
    match configGet config "defaults" "hostfile" with
    | .error e => (trace, .error (.uncaught e))
    | .ok hostfile =>
        if (some hostfile).isNone = true then
          (trace ++ [.printOut hostfileKeyMsg], .error (.exitWith 2))
        else
          match configGet config "defaults" "private_key_file" with
          | .error e => (trace, .error (.uncaught e))
          | .ok private_key => (trace, .ok (private_key, hostfile))

/-- `get_host(hostfile)`: checks that the hostfile exists (printing guidance
and exiting 3 otherwise), reads its lines, and returns `data[1].strip()`;
an out-of-bounds `data[1]` raises an uncaught `IndexError`. -/
def get_host (fs : FS) (hostfile : String) : List Event × Except Outcome String :=
  if pathExists fs hostfile = false then
    ([.existsCheck hostfile, .printOut (hostfileMissingMsg hostfile)],
     .error (.exitWith 3))
  else
    let trace : List Event := [.existsCheck hostfile, .openRead hostfile]
    let data := pyReadlines (readFileD fs hostfile)
    match data[1]? with
    | none => (trace, .error (.uncaught .indexErr))
    | some line => (trace, .ok (pyStrip line))

/-- The `old_cmd` string built by `example_02`:
`"ssh -i {pem_file_path} ec2-user@{machine_address}".format(...)`. -/
def old_cmd (pem_file_path machine_address : String) : String :=
  "ssh -i " ++ pem_file_path ++ " ec2-user@" ++ machine_address

/-- The `new_cmd` string built by `example_02`:
`"{0} -t 'sudo yum update -y'".format(old_cmd)`. -/
def new_cmd (pem_file_path machine_address : String) : String :=
  old_cmd pem_file_path machine_address ++ " -t \x27sudo yum update -y\x27"

/-- `example_02(pem_file_path, machine_address)`: prints the banner with the
constructed command, prompts `'--> '` (the response is read and discarded),
prints the command again, runs it through the shell (the child's status is
returned by `subprocess.call` and discarded), and prints a final newline.
`confirmation` and `childStatus` are the values the environment supplies at
the prompt and from the child process. -/
def example_02 (pem_file_path machine_address confirmation : String)
    (childStatus : Int) : List Event :=
  let cmd := new_cmd pem_file_path machine_address
  [.printOut (commandPromptMsg cmd),
   .promptRead "--> " confirmation,
   .printOut ("\nCommand to execute: " ++ cmd ++ "\n\n"),
   .spawnShell cmd childStatus,
   .printOut "\n"]

/-- The `__main__` block: `get_private_key_and_hostfile`, then `get_host`,
then `example_02`; the result is the whole event trace together with the
script's own termination (normal, `sys.exit`, or uncaught exception). -/
def runProgram (fs : FS) (confirmation : String) (childStatus : Int) :
    List Event × Except Outcome Unit :=
  match get_private_key_and_hostfile fs with
  | (t1, .error e) => (t1, .error e)
  | (t1, .ok (private_key, hostfile)) =>
      match get_host fs hostfile with
      | (t2, .error e) => (t1 ++ t2, .error e)
      | (t2, .ok machine_address) =>
          (t1 ++ t2 ++ example_02 private_key machine_address confirmation childStatus,
           .ok ())

/-! ### Observation helpers -/

/-- The process exit status a termination produces: `0` for a normal finish,
the code of a `sys.exit(code)`, and `1` for an uncaught exception (Python's
status for a traceback). -/
def pyExitCode {α : Type} : Except Outcome α → Nat
  | .ok _ => 0
  | .error (.exitWith c) => c
  | .error (.uncaught _) => 1

/-- The shell commands spawned in a trace, in order. -/
def spawnedCommands (evs : List Event) : List String :=
  evs.filterMap fun e =>
    match e with
    | .spawnShell c _ => some c
    | _ => none

/-- The script's own view of an event: the child's exit status, which the
script receives from `subprocess.call` but never inspects, is erased. -/
def ownView : Event → Event
  | .spawnShell c _ => .spawnShell c 0
  | e => e

/-- Whether a `get_private_key_and_hostfile` result is the designed
`sys.exit(2)` of the dead `hostfile is None` guard. -/
def isHostfileKeyExit : Except Outcome (String × String) → Bool
  | .error (.exitWith 2) => true
  | _ => false

/-- Whether a `get_host` result is one of the script's designed
`sys.exit` terminations. -/
def isDesignedExit : Except Outcome String → Bool
  | .error (.exitWith _) => true
  | _ => false

/-! ### Concrete file systems used to witness the theorems -/

/-- A file system whose configuration has a `defaults` section that lacks the
`hostfile` key. -/
def fsNoHostfileKey : FS :=
  ⟨[(ANSIBLE_CFG, "[defaults]\nprivate_key_file=/tmp/key.pem\n")]⟩

/-- A file system with a hostfile of two lines. -/
def fsTwoLines : FS :=
  ⟨[("hosts", "[webservers]\n10.0.0.5\n")]⟩

/-- A file system with a different hostfile sharing the same second line. -/
def fsTwoLinesB : FS :=
  ⟨[("hostsB", "[others]\n10.0.0.5\nextra line\n")]⟩

/-- A file system with a hostfile of a single line. -/
def fsOneLine : FS :=
  ⟨[("hosts1", "only-one-line")]⟩

/-- The empty file system. -/
def fsEmpty : FS := ⟨[]⟩

/-- The end-to-end scenario of the specification: the configuration at the
fixed path names `/tmp/hosts` and `/tmp/key.pem`, and `/tmp/hosts` holds the
two lines `[webservers]` and `10.0.0.5`. -/
def fsScenario : FS :=
  ⟨[(ANSIBLE_CFG, "[defaults]\nhostfile=/tmp/hosts\nprivate_key_file=/tmp/key.pem\n"),
    ("/tmp/hosts", "[webservers]\n10.0.0.5\n")]⟩

/-- A file system whose configuration lacks the `defaults` section. -/
def fsNoDefaults : FS :=
  ⟨[(ANSIBLE_CFG, "[other]\nhostfile=/tmp/hosts\n")]⟩

/-- A file system whose `defaults` section has `hostfile` but lacks
`private_key_file`. -/
def fsNoPrivateKey : FS :=
  ⟨[(ANSIBLE_CFG, "[defaults]\nhostfile=/tmp/hosts\n")]⟩

/-- A valid configuration whose hostfile points at `fsTwoLines`'s file. -/
def fsFullRun : FS :=
  ⟨[(ANSIBLE_CFG, "[defaults]\nhostfile=hosts\nprivate_key_file=key.pem\n"),
    ("hosts", "[webservers]\n10.0.0.5\n")]⟩

/-! ### Helper lemmas -/

/-- When the hostfile exists, `get_host` checks, opens and reads it, and its
result is determined by the second entry of `readlines`. -/
theorem get_host_eq_of_exists (fs : FS) (p : String) (h : pathExists fs p = true) :
    get_host fs p =
      ([Event.existsCheck p, Event.openRead p],
        match (pyReadlines (readFileD fs p))[1]? with
        | none => Except.error (Outcome.uncaught PyExc.indexErr)
        | some line => Except.ok (pyStrip line)) := by
  cases hd : (pyReadlines (readFileD fs p))[1]? <;>
    simp [get_host, h, hd]

/-- When `./ansible.cfg` exists, `get_private_key_and_hostfile` checks, opens
and parses it, and its result is determined by the two `ConfigParser.get`
calls; the `hostfile is None` guard never fires. -/
theorem gpk_eq_of_exists (fs : FS) (h : pathExists fs ANSIBLE_CFG = true) :
    get_private_key_and_hostfile fs =
      ([Event.existsCheck ANSIBLE_CFG, Event.openRead ANSIBLE_CFG],
        match configGet (parseIni (readFileD fs ANSIBLE_CFG)) "defaults" "hostfile" with
        | .error e => Except.error (Outcome.uncaught e)
        | .ok hostfile =>
            match configGet (parseIni (readFileD fs ANSIBLE_CFG)) "defaults" "private_key_file" with
            | .error e => Except.error (Outcome.uncaught e)
            | .ok private_key => Except.ok (private_key, hostfile)) := by
  cases h1 : configGet (parseIni (readFileD fs ANSIBLE_CFG)) "defaults" "hostfile" with
  | error e => simp [get_private_key_and_hostfile, h, h1]
  | ok hf =>
      cases h2 : configGet (parseIni (readFileD fs ANSIBLE_CFG)) "defaults" "private_key_file" <;>
        simp [get_private_key_and_hostfile, h, h1, h2]

/-! ### The claims -/

/-- C1: for every host-inventory file that exists and contains at least two
lines, `get_host` returns exactly the second line (index 1) of the file with
surrounding whitespace trimmed as the machine address, and the content of
every other line has no effect: any two existing files agreeing on their
second line yield the same result. -/
theorem second_line_is_address (fs fs2 : FS) (p p2 : String)
    (h : pathExists fs p = true) (h2 : pathExists fs2 p2 = true)
    (hl : 1 < (pyReadlines (readFileD fs p)).length)
    (hsame : (pyReadlines (readFileD fs p))[1]? = (pyReadlines (readFileD fs2 p2))[1]?) :
    (get_host fs p).2 = Except.ok (pyStrip (pyReadlines (readFileD fs p))[1])
    ∧ (get_host fs p).2 = (get_host fs2 p2).2 := by
  have e1 : (pyReadlines (readFileD fs p))[1]? =
      some (pyReadlines (readFileD fs p))[1] :=
    List.getElem?_eq_getElem hl
  constructor
  · rw [get_host_eq_of_exists fs p h, e1]
  · rw [get_host_eq_of_exists fs p h, get_host_eq_of_exists fs2 p2 h2, ← hsame, e1]

/-- Witness for C1: a two-line inventory file yields the trimmed second line
`10.0.0.5`, and a different file with the same second line yields the same
address. -/
theorem second_line_is_address_w :
    1 < (pyReadlines (readFileD fsTwoLines "hosts")).length
    ∧ (get_host fsTwoLines "hosts").2 = Except.ok "10.0.0.5"
    ∧ (get_host fsTwoLines "hosts").2 = (get_host fsTwoLinesB "hostsB").2 := by
  have h := second_line_is_address fsTwoLines fsTwoLinesB "hosts" "hostsB"
    rfl rfl (by decide) (by decide)
  exact ⟨by decide, by rw [h.1]; rfl, h.2⟩

/-- C2 (code bug): on a configuration whose `defaults` section lacks the
`hostfile` key, `ConfigParser.get` raises `NoOptionError`, so the script dies
with an uncaught exception (process status 1) and prints nothing; the
`if hostfile is None: sys.exit(2)` guard can never fire on any file system
because `get` never returns `None`. -/
theorem missing_hostfile_key_uncaught :
    (get_private_key_and_hostfile fsNoHostfileKey).2 =
        Except.error (Outcome.uncaught (PyExc.noOption "defaults" "hostfile"))
    ∧ (get_private_key_and_hostfile fsNoHostfileKey).1 =
        [Event.existsCheck ANSIBLE_CFG, Event.openRead ANSIBLE_CFG]
    ∧ pyExitCode (get_private_key_and_hostfile fsNoHostfileKey).2 = 1
    ∧ ∀ fs : FS, isHostfileKeyExit (get_private_key_and_hostfile fs).2 = false := by
  refine ⟨rfl, rfl, rfl, ?_⟩
  intro fs
  cases hb : pathExists fs ANSIBLE_CFG with
  | false => simp [get_private_key_and_hostfile, hb, isHostfileKeyExit]
  | true =>
      rw [gpk_eq_of_exists fs hb]
      cases h1 : configGet (parseIni (readFileD fs ANSIBLE_CFG)) "defaults" "hostfile" with
      | error e => simp [isHostfileKeyExit]
      | ok hf =>
          cases h2 : configGet (parseIni (readFileD fs ANSIBLE_CFG)) "defaults" "private_key_file" with
          | error e => simp [isHostfileKeyExit]
          | ok pk => simp [isHostfileKeyExit]

/-- C3: the command string constructed by `example_02` is exactly
`ssh -i {key_path} ec2-user@{address} -t 'sudo yum update -y'`, a function of
the key-file path and machine address alone, and it is the one command the
run spawns whatever confirmation input and child status the environment
supplies. -/
theorem command_template (pem_file_path machine_address confirmation : String)
    (st : Int) :
    new_cmd pem_file_path machine_address =
      "ssh -i " ++ pem_file_path ++ " ec2-user@" ++ machine_address ++
        " -t \x27sudo yum update -y\x27"
    ∧ spawnedCommands (example_02 pem_file_path machine_address confirmation st) =
        [new_cmd pem_file_path machine_address] := by
  exact ⟨rfl, rfl⟩

/-- C4: when `./ansible.cfg` does not exist, the program prints the guidance
text and terminates with exit code 1, and its trace holds the existence check
and the print only — in particular no file is ever opened for reading. -/
theorem missing_config_exits_one (fs : FS) (conf : String) (st : Int)
    (h : pathExists fs ANSIBLE_CFG = false) :
    runProgram fs conf st =
      ([Event.existsCheck ANSIBLE_CFG, Event.printOut configMissingMsg],
        Except.error (Outcome.exitWith 1))
    ∧ pyExitCode (runProgram fs conf st).2 = 1
    ∧ ∀ p, Event.openRead p ∉ (runProgram fs conf st).1 := by
  have hg : get_private_key_and_hostfile fs =
      ([Event.existsCheck ANSIBLE_CFG, Event.printOut configMissingMsg],
        Except.error (Outcome.exitWith 1)) := by
    unfold get_private_key_and_hostfile
    rw [if_pos h]
  have hr : runProgram fs conf st =
      ([Event.existsCheck ANSIBLE_CFG, Event.printOut configMissingMsg],
        Except.error (Outcome.exitWith 1)) := by
    unfold runProgram
    rw [hg]
  refine ⟨hr, by rw [hr]; rfl, ?_⟩
  intro p
  rw [hr]
  simp

/-- Witness for C4: on the empty file system the configuration is missing,
the program exits with code 1, and nothing is opened for reading. -/
theorem missing_config_exits_one_w :
    pathExists fsEmpty ANSIBLE_CFG = false
    ∧ pyExitCode (runProgram fsEmpty "" 0).2 = 1
    ∧ Event.openRead ANSIBLE_CFG ∉ (runProgram fsEmpty "" 0).1 := by
  have h := missing_config_exits_one fsEmpty "" 0 rfl
  exact ⟨rfl, h.2.1, h.2.2 ANSIBLE_CFG⟩

/-- C5: when the host-inventory file path does not exist, `get_host` prints
the guidance text and terminates the process with exit code 3. -/
theorem missing_hostfile_exits_three (fs : FS) (hostfile : String)
    (h : pathExists fs hostfile = false) :
    get_host fs hostfile =
      ([Event.existsCheck hostfile, Event.printOut (hostfileMissingMsg hostfile)],
        Except.error (Outcome.exitWith 3)) := by
  unfold get_host
  rw [if_pos h]

/-- Witness for C5: on the empty file system `get_host` on `/tmp/hosts`
prints the guidance and exits with code 3. -/
theorem missing_hostfile_exits_three_w :
    pathExists fsEmpty "/tmp/hosts" = false
    ∧ (get_host fsEmpty "/tmp/hosts").2 = Except.error (Outcome.exitWith 3) := by
  refine ⟨rfl, ?_⟩
  rw [missing_hostfile_exits_three fsEmpty "/tmp/hosts" rfl]

/-- C6: when the host-inventory file exists but holds fewer than two lines,
the `data[1]` access fails with an uncaught `IndexError` — none of the
designed `sys.exit` terminations — and when the file has at least two lines
that error branch is unreachable: `get_host` returns normally. -/
theorem short_hostfile_index_error (fs : FS) (p : String)
    (h : pathExists fs p = true) :
    ((pyReadlines (readFileD fs p)).length < 2 →
        (get_host fs p).2 = Except.error (Outcome.uncaught PyExc.indexErr)
        ∧ isDesignedExit (get_host fs p).2 = false)
    ∧ (1 < (pyReadlines (readFileD fs p)).length →
        ∃ s, (get_host fs p).2 = Except.ok s) := by
  constructor
  · intro hlen
    have hnone : (pyReadlines (readFileD fs p))[1]? = none :=
      List.getElem?_eq_none (by omega)
    rw [get_host_eq_of_exists fs p h, hnone]
    exact ⟨rfl, rfl⟩
  · intro hl
    rw [get_host_eq_of_exists fs p h, List.getElem?_eq_getElem hl]
    exact ⟨_, rfl⟩

/-- Witness for C6: a one-line inventory file produces the uncaught
`IndexError`, and a two-line file returns normally. -/
theorem short_hostfile_index_error_w :
    ((get_host fsOneLine "hosts1").2 = Except.error (Outcome.uncaught PyExc.indexErr)
      ∧ isDesignedExit (get_host fsOneLine "hosts1").2 = false)
    ∧ ∃ s, (get_host fsTwoLines "hosts").2 = Except.ok s := by
  exact ⟨(short_hostfile_index_error fsOneLine "hosts1" rfl).1 (by decide),
    (short_hostfile_index_error fsTwoLines "hosts" rfl).2 (by decide)⟩

/-- C7: the child status returned by `subprocess.call` is never inspected:
two runs differing only in the child's exit status have the same trace up to
that status and the same termination, and a run that reaches the subprocess
call finishes with overall exit code 0. -/
theorem child_status_never_inspected (fs : FS) (conf : String) (s1 s2 : Int)
    (h : (runProgram fs conf s1).2 = Except.ok ()) :
    (runProgram fs conf s1).1.map ownView = (runProgram fs conf s2).1.map ownView
    ∧ (runProgram fs conf s2).2 = Except.ok ()
    ∧ pyExitCode (runProgram fs conf s1).2 = 0 := by
  rcases hg : get_private_key_and_hostfile fs with ⟨t1, r1⟩
  cases r1 with
  | error e =>
      rw [show runProgram fs conf s1 = (t1, Except.error e) by
        simp [runProgram, hg]] at h
      exact absurd h (by simp)
  | ok pr =>
      obtain ⟨pk, hf⟩ := pr
      rcases hh : get_host fs hf with ⟨t2, r2⟩
      cases r2 with
      | error e =>
          rw [show runProgram fs conf s1 = (t1 ++ t2, Except.error e) by
            simp [runProgram, hg, hh]] at h
          exact absurd h (by simp)
      | ok addr =>
          have e1 : runProgram fs conf s1 =
              (t1 ++ t2 ++ example_02 pk addr conf s1, Except.ok ()) := by
            simp [runProgram, hg, hh]
          have e2 : runProgram fs conf s2 =
              (t1 ++ t2 ++ example_02 pk addr conf s2, Except.ok ()) := by
            simp [runProgram, hg, hh]
          rw [e1, e2]
          refine ⟨?_, rfl, rfl⟩
          simp [example_02, ownView]

/-- Witness for C7: a complete valid run succeeds, and its overall exit code
is 0 whatever the child status was. -/
theorem child_status_never_inspected_w :
    (runProgram fsFullRun "" 0).2 = Except.ok ()
    ∧ pyExitCode (runProgram fsFullRun "" 0).2 = 0 := by
  exact ⟨rfl, (child_status_never_inspected fsFullRun "" 0 7 rfl).2.2⟩

/-- C8: the confirmation read accepts every input: for every response,
including the empty string, `example_02` goes on to spawn the update command,
and the spawned command is the same for any two responses. -/
theorem confirmation_input_ignored (pem addr c1 c2 : String) (st : Int) :
    spawnedCommands (example_02 pem addr c1 st) = [new_cmd pem addr]
    ∧ spawnedCommands (example_02 pem addr c1 st) =
        spawnedCommands (example_02 pem addr c2 st) := by
  exact ⟨rfl, rfl⟩

/-- C9: in the end-to-end scenario — configuration at the fixed path naming
`/tmp/hosts` and `/tmp/key.pem`, hostfile holding `[webservers]` and
`10.0.0.5` — the program derives the address `10.0.0.5`, spawns exactly
`ssh -i /tmp/key.pem ec2-user@10.0.0.5 -t 'sudo yum update -y'`, and
finishes normally. -/
theorem scenario_end_to_end :
    (get_private_key_and_hostfile fsScenario).2 =
        Except.ok ("/tmp/key.pem", "/tmp/hosts")
    ∧ (get_host fsScenario "/tmp/hosts").2 = Except.ok "10.0.0.5"
    ∧ spawnedCommands (runProgram fsScenario "" 0).1 =
        ["ssh -i /tmp/key.pem ec2-user@10.0.0.5 -t \x27sudo yum update -y\x27"]
    ∧ (runProgram fsScenario "" 0).2 = Except.ok () := by
  exact ⟨rfl, rfl, rfl, rfl⟩

/-- C10: when the configuration file exists but has no `defaults` section,
or its `defaults` section has `hostfile` but no `private_key_file` (with no
`DEFAULT` fallback), `get_private_key_and_hostfile` ends in the corresponding
uncaught `ConfigParser` exception, not in any designed `sys.exit`. -/
theorem parser_exceptions_uncaught (fs : FS)
    (hex : pathExists fs ANSIBLE_CFG = true) :
    ((parseIni (readFileD fs ANSIBLE_CFG)).lookup "defaults" = none →
        (get_private_key_and_hostfile fs).2 =
          Except.error (Outcome.uncaught (PyExc.noSection "defaults")))
    ∧ (∀ opts hf,
        (parseIni (readFileD fs ANSIBLE_CFG)).lookup "defaults" = some opts →
        opts.lookup "hostfile" = some hf →
        opts.lookup "private_key_file" = none →
        ((parseIni (readFileD fs ANSIBLE_CFG)).lookup DEFAULTSECT).getD [] = [] →
        (get_private_key_and_hostfile fs).2 =
          Except.error (Outcome.uncaught (PyExc.noOption "defaults" "private_key_file"))) := by
  have hkey : pyLower "hostfile" = "hostfile" := rfl
  have hkey2 : pyLower "private_key_file" = "private_key_file" := rfl
  constructor
  · intro hnone
    have h1 : configGet (parseIni (readFileD fs ANSIBLE_CFG)) "defaults" "hostfile" =
        Except.error (PyExc.noSection "defaults") := by
      simp [configGet, hnone]
    rw [gpk_eq_of_exists fs hex, h1]
  · intro opts hf hdefs hhost hpk hdefault
    have h1 : configGet (parseIni (readFileD fs ANSIBLE_CFG)) "defaults" "hostfile" =
        Except.ok hf := by
      simp [configGet, hkey, hdefs, hhost]
    have h2 : configGet (parseIni (readFileD fs ANSIBLE_CFG)) "defaults" "private_key_file" =
        Except.error (PyExc.noOption "defaults" "private_key_file") := by
      simp [configGet, hkey2, hdefs, hpk, hdefault]
    rw [gpk_eq_of_exists fs hex, h1, h2]

/-- Witness for C10: a configuration without a `defaults` section dies with
`NoSectionError`, and one whose `defaults` section lacks `private_key_file`
dies with `NoOptionError`. -/
theorem parser_exceptions_uncaught_w :
    (get_private_key_and_hostfile fsNoDefaults).2 =
        Except.error (Outcome.uncaught (PyExc.noSection "defaults"))
    ∧ (get_private_key_and_hostfile fsNoPrivateKey).2 =
        Except.error (Outcome.uncaught (PyExc.noOption "defaults" "private_key_file")) := by
  refine ⟨(parser_exceptions_uncaught fsNoDefaults rfl).1 rfl,
    (parser_exceptions_uncaught fsNoPrivateKey rfl).2
      [("hostfile", "/tmp/hosts")] "/tmp/hosts" rfl rfl rfl rfl⟩

end AutoUpdate
